import Mathlib

/-!
Shallow embedding of the Geographic_data_analysis backend
(`src/backend/backend/main.py` and `src/backend/db.py`).

The service is a thin FastAPI layer: each handler reads fields out of a JSON
request body, validates them, runs one or two parameterized PostGIS queries,
and shapes the rows into GeoJSON Feature / FeatureCollection envelopes.
The spatial engine (PostGIS) and the `json` stdlib are external collaborators;
they are modelled as oracle fields of a `World` structure, while all of the
Python control flow (field lookup, truthiness, `int()` coercion, `.lower()`,
exception raising and propagation, SQL `WHERE` / `ORDER BY` / `LIMIT`
application, row shaping) is translated directly from the source.
-/

/-- A JSON value, as delivered by FastAPI's `Body(...)` parsing.  Python
`None` is represented by `Json.null` (both an absent key read with `.get`
and an explicit JSON `null` surface as `None` in the Python code). -/
inductive Json where
  | null
  | bool (b : Bool)
  | num (q : ℚ)
  | str (s : String)
  | arr (xs : List Json)
  | obj (kvs : List (String × Json))

namespace Json

/-- Python `==` on JSON values (structural equality), used by the source
only through `id = ANY(%s)` membership in the union-by-ids query. -/
def beq : Json → Json → Bool
  | .null, .null => true
  | .bool a, .bool b => a == b
  | .num a, .num b => a == b
  | .str a, .str b => a == b
  | .arr a, .arr b => beqList a b
  | .obj a, .obj b => beqKvs a b
  | _, _ => false
where
  beqList : List Json → List Json → Bool
    | [], [] => true
    | x :: xs, y :: ys => beq x y && beqList xs ys
    | _, _ => false
  beqKvs : List (String × Json) → List (String × Json) → Bool
    | [], [] => true
    | (k, v) :: xs, (l, w) :: ys => k == l && beq v w && beqKvs xs ys
    | _, _ => false

/-- Python `x is None`. -/
def isNull : Json → Bool
  | .null => true
  | _ => false

/-- Python truthiness of a JSON value (`if x:` / `x or y`). -/
def truthy : Json → Bool
  | .null => false
  | .bool b => b
  | .num q => q != 0
  | .str s => s ≠ ""
  | .arr xs => !xs.isEmpty
  | .obj kvs => !kvs.isEmpty

end Json

/-- A Python request body: the `Dict[str, Any]` produced by `Body(...)`.
Python dicts have unique keys and preserve insertion order, which an
association list models directly. -/
abbrev Payload := List (String × Json)

/-- Python `payload.get(k)`: `Json.null` (Python `None`) when the key is
absent, otherwise the stored value (which may itself be `null`). -/
def dictGet (p : Payload) (k : String) : Json :=
  (p.lookup k).getD .null

/-- Python `payload.get(k, default)`: the default is used only when the
key is absent; an explicit `null` value is returned as `None`. -/
def dictGetD (p : Payload) (k : String) (d : Json) : Json :=
  (p.lookup k).getD d

/-- Python `a or b` specialised to the JSON operands the source uses. -/
def pyOr (a b : Json) : Json :=
  if a.truthy then a else b

/-- How a Python exception escapes a handler.  FastAPI turns an
`HTTPException(status, detail)` into an HTTP response with that status;
any other uncaught exception (`ValueError`, `TypeError`,
`AttributeError`, driver errors) becomes a 500 internal server error. -/
inductive PyError where
  | httpException (status : Nat) (detail : String)
  | valueError (msg : String)
  | typeError (msg : String)
  | attributeError (msg : String)
  | dbError (msg : String)
deriving DecidableEq, Repr

/-- An error FastAPI surfaces as a client (4xx) response: only an
explicitly raised `HTTPException` with a 4xx status qualifies. -/
def isClientError : PyError → Prop
  | .httpException s _ => 400 ≤ s ∧ s < 500
  | _ => False

/-- A not-found (404) `HTTPException`. -/
def isNotFoundError : PyError → Prop
  | .httpException s _ => s = 404
  | _ => False

/-- Truncation of a rational toward zero: the value of Python `int(q)`
on a float or int `q`. -/
def ratTrunc (q : ℚ) : ℤ :=
  if 0 ≤ q then ⌊q⌋ else ⌈q⌉

/-- Conversion of an integer-literal string, Python `int(str)`: optional
surrounding spaces, an optional sign, then at least one ASCII digit
(Python's underscore and non-space-whitespace tolerance are not
modelled — no claim exercises them).  Written over the character list so
it evaluates by reduction. -/
def strToInt? (s : String) : Option ℤ :=
  let cs := ((s.data.dropWhile (fun c => c == ' ')).reverse.dropWhile (fun c => c == ' ')).reverse
  let core : ℤ × List Char :=
    match cs with
    | '-' :: rest => (-1, rest)
    | '+' :: rest => (1, rest)
    | rest => (1, rest)
  match core with
  | (sign, ds) =>
    if ds.isEmpty || !(ds.all Char.isDigit) then none
    else some (sign * ((ds.foldl (fun n c => 10 * n + (c.toNat - 48)) 0 : ℕ) : ℤ))

/-- Python `int(x)` applied to a JSON value: numbers truncate toward
zero, booleans give 0/1, integer-literal strings convert, everything
else raises `TypeError`/`ValueError`. -/
def pyInt : Json → Except PyError ℤ
  | .num q => .ok (ratTrunc q)
  | .bool b => .ok (if b then 1 else 0)
  | .str s =>
    match strToInt? s with
    | some n => .ok n
    | none => .error (.valueError ("invalid literal for int with base 10: " ++ s))
  | .null => .error (.typeError "int argument must be a string or a number, not NoneType")
  | _ => .error (.typeError "int argument must be a string or a number")

/-- ASCII lowercasing of a string, written over the character list so
that it evaluates by reduction (Python `str.lower()`; the source only
ever compares the result against the ASCII literal "regions"). -/
def lowerStr (s : String) : String := ⟨s.data.map Char.toLower⟩

/-- Python `x.lower()`: defined on strings, raises `AttributeError` on
any other value. -/
def pyLower : Json → Except PyError String
  | .str s => .ok (lowerStr s)
  | _ => .error (.attributeError "object has no attribute lower")

/-- Python `for g in x`: lists yield elements, strings yield their
characters as one-character strings, dicts yield their keys; numbers and
booleans raise `TypeError`.  (`None` is never iterated by the source:
iteration only happens under a truthiness guard.) -/
def pyIter : Json → Except PyError (List Json)
  | .arr xs => .ok xs
  | .str s => .ok (s.toList.map (fun c => .str (String.singleton c)))
  | .obj kvs => .ok (kvs.map (fun kv => .str kv.1))
  | _ => .error (.typeError "object is not iterable")

/-- The `json.dumps` serialisation of a parsed-geometry result as handed
to the engine: a Python `None` geometry is serialised as JSON `null`. -/
def optToJson : Option Json → Json
  | none => .null
  | some j => j

/-! ## The Geometry Adapter: `src/backend/db.py` -/

/-- The effect of `r.pop(geom_key, None)` followed by the `is None` test
in `rows_to_featurecollection`: the popped geometry (with a stored JSON
`null` surfacing as Python `None`, i.e. `none`). -/
def popGeom (r : Payload) (geom_key : String) : Option Json :=
  match r.lookup geom_key with
  | none => none
  | some v => if v.isNull then none else some v

/-- The row dict after `r.pop(geom_key, None)`: the geometry column is
removed (whether null or not); all other columns keep their values and
relative order. -/
def popRest (r : Payload) (geom_key : String) : Payload :=
  r.filter (fun kv => kv.1 ≠ geom_key)

/-- One loop iteration of `rows_to_featurecollection`: the Feature built
from a row, or `none` when the row is skipped because its geometry
column is absent or null. -/
def rowFeature (geom_key : String) (r : Payload) : Option Json :=
  match popGeom r geom_key with
  | none => none
  | some geom =>
    some (.obj [("type", .str "Feature"), ("geometry", geom),
                ("properties", .obj (popRest r geom_key))])

/-- Translation of `db.rows_to_featurecollection(rows, geom_key="geom_geojson")`:
the Python `for` loop appending to a `features` accumulator list. -/
def rows_to_featurecollection (rows : List Payload)
    (geom_key : String := "geom_geojson") : Json :=
  let features := rows.foldl (fun acc r =>
    match rowFeature geom_key r with
    | none => acc
    | some f => acc ++ [f]) []
  .obj [("type", .str "FeatureCollection"), ("features", .arr features)]

/-- Translation of `db.one_geom_to_feature(geom_obj, properties=None)`;
the body evaluates `properties or {}`, so a falsy (absent or empty)
properties mapping becomes the empty object. -/
def one_geom_to_feature (geom_obj : Json) (properties : Json := .null) : Json :=
  .obj [("type", .str "Feature"), ("geometry", geom_obj),
        ("properties", pyOr properties (.obj []))]

/-- Python `obj.get("geometry")` on a Feature dict, as Python `None` for
an absent key or a stored `null`. -/
def getGeometryField (kvs : List (String × Json)) : Option Json :=
  match kvs.lookup "geometry" with
  | none => none
  | some v => if v.isNull then none else some v

/-- Translation of `db.parse_geojson_geometry(geojson_obj)`.  The
`loads` argument is the external `json.loads`, returning `none` when
decoding raises `JSONDecodeError` (a `ValueError` subclass).  A
successful result is the geometry dict, or `none` when a Feature carries
a null/absent geometry (Python returns `None` there). -/
def parse_geojson_geometry (loads : String → Option Json) (geojson_obj : Json) :
    Except PyError (Option Json) :=
  if geojson_obj.isNull then
    .error (.valueError "geojson is required")
  else
    let decoded : Except PyError Json :=
      match geojson_obj with
      | .str s =>
        match loads s with
        | some j => .ok j
        | none => .error (.valueError "Expecting value: JSON decode error")
      | j => .ok j
    match decoded with
    | .error e => .error e
    | .ok j =>
      match j with
      | .obj kvs =>
        match kvs.lookup "type" with
        | none => .error (.valueError "Invalid GeoJSON: must be a dict with a 'type' field")
        | some t =>
          if t.beq (.str "Feature") then
            .ok (getGeometryField kvs)
          else
            .ok (some (.obj kvs))
      | _ => .error (.valueError "Invalid GeoJSON: must be a dict with a 'type' field")

/-! ## The external collaborators and the stored tables -/

/-- A stored table row.  Both configured tables expose `id`, `name` and a
geometry; the features table additionally exposes `osmid`,
`element_type` and `tags` (never selected from the regions table by any
query in the source).  The geometry is identified with its
`ST_AsGeoJSON(geom)::json` rendering, the only way any handler observes
it; all geometric computation on it is an oracle of `World`. -/
structure Row where
  id : Json
  name : Json
  osmid : Json := .null
  element_type : Json := .null
  tags : Json := .null
  geom : Json

/-- The two operator-configured tables (`REGIONS_TABLE`, `FEATURES_TABLE`). -/
inductive Table where
  | regions
  | features
deriving DecidableEq, Repr

/-- The environment a request executes against: the database contents
plus the spatial engine's functions and the Python `json.loads` decoder,
all external collaborators of the service. -/
structure World where
  featRows : List Row
  regRows : List Row
  /-- Python `json.loads`; `none` models a raised `JSONDecodeError`. -/
  loads : String → Option Json
  /-- PostGIS `GeometryType(geom) IN ('POLYGON','MULTIPOLYGON')`. -/
  isPolygonal : Json → Bool
  /-- PostGIS `ST_Covers(geom, ST_SetSRID(ST_MakePoint(lon, lat), 4326))`. -/
  covers : Json → Json → Json → Bool
  /-- PostGIS `ST_Intersects(geom, g)` against a query geometry. -/
  stIntersects : Json → Json → Bool
  /-- PostGIS `ST_DWithin(geom::geography, pt::geography, radius_m)`. -/
  dwithin : Json → Json → Json → Json → Bool
  /-- PostGIS `ST_Distance(geom::geography, pt::geography)` (geodesic metres,
  the `dist_m` column). -/
  geogDist : Json → Json → Json → ℚ
  /-- The PostGIS `geom <-> pt` KNN operator (planar geometry distance),
  the `ORDER BY` key of the knn query — a different measure from
  `geogDist`. -/
  opDist : Json → Json → Json → ℚ
  /-- PostGIS `ST_Buffer(ST_SetSRID(ST_MakePoint(lon,lat),4326)::geography, buffer_m)`
  rendered through `ST_AsGeoJSON(...)::json`. -/
  bufGeo : Json → Json → Json → Json
  /-- PostGIS `ST_Area(g::geography)` of the query geometry. -/
  stArea : Json → ℚ
  /-- PostGIS `ST_Perimeter(g::geography)` of the query geometry. -/
  stPerimeter : Json → ℚ
  /-- PostGIS `ST_AsGeoJSON(ST_Union(...))::json` over a list of
  geometries; `none` models a SQL `NULL` result. -/
  stUnion : List Json → Option Json
  /-- PostGIS `ST_AsGeoJSON(ST_Intersection(a, b))::json`; `none` models a
  SQL `NULL` result. -/
  stIntersection : Json → Json → Option Json
  /-- PostGIS `ST_Area(ST_Intersection(a, b)::geography)`. -/
  stIntersectionArea : Json → Json → ℚ
  /-- PostGIS `ST_AsGeoJSON(q.g)::json` where `q.g` is the query geometry
  with SRID set to 4326: the original-system rendering returned by the
  transform query.  It does not depend on the target EPSG code. -/
  renderWgs84 : Json → Json
  /-- PostGIS `ST_AsGeoJSON(ST_Transform(q.g, to_epsg))::json`. -/
  stTransform : Json → ℤ → Json

/-- The rows of the table selected by a handler's `source` switch. -/
def World.tableRows (w : World) : Table → List Row
  | .regions => w.regRows
  | .features => w.featRows

/-- SQL `LIMIT %s` with the Python int the handler computed: PostgreSQL
rejects a negative limit at execution time; otherwise the first `n` rows
of the result are kept. -/
def sqlLimit (n : ℤ) (xs : List α) : Except PyError (List α) :=
  if n < 0 then .error (.dbError "LIMIT must not be negative")
  else .ok (xs.take n.toNat)

/-- SQL `COALESCE(name, '')`. -/
def coalesceEmpty (j : Json) : Json :=
  if j.isNull then .str "" else j

/-! ## The Query Dispatcher: `src/backend/backend/main.py` -/

/-- Translation of the handler of `GET /health`. -/
def health : Json := .obj [("ok", .bool true)]

/-- The query of `point_in_polygon` after validation: restrict the chosen
table to polygonal geometries covering the query point, apply `LIMIT`,
and shape `id`, `COALESCE(name,'')`, `geom_geojson` rows. -/
def pipExec (w : World) (t : Table) (lon lat : Json) (limit : ℤ) :
    Except PyError Json :=
  let rows := (w.tableRows t).filter (fun r => w.isPolygonal r.geom && w.covers r.geom lon lat)
  match sqlLimit limit (rows.map (fun r =>
      [("id", r.id), ("name", coalesceEmpty r.name), ("geom_geojson", r.geom)])) with
  | .error e => .error e
  | .ok out => .ok (rows_to_featurecollection out)

/-- Translation of the handler of `POST /q/pip` (`point_in_polygon`),
statement by statement: `lon`/`lat` lookup, `source` normalisation
(which calls `.lower()` before anything is validated), `limit` coercion
via `int()`, then the presence check, then the query. -/
def point_in_polygon (w : World) (payload : Payload) : Except PyError Json :=
  let lon := dictGet payload "lon"
  let lat := dictGet payload "lat"
  match pyLower (pyOr (dictGet payload "source") (.str "features")) with
  | .error e => .error e
  | .ok source =>
    match pyInt (dictGetD payload "limit" (.num 200)) with
    | .error e => .error e
    | .ok limit =>
      if lon.isNull || lat.isNull then
        .error (.httpException 400 "lon/lat required")
      else
        let table := if source = "regions" then Table.regions else Table.features
        pipExec w table lon lat limit

/-- The query of `polygon_intersects` after input normalisation: filter
the chosen table by `ST_Intersects` against the (dumped) query geometry,
apply `LIMIT`, and shape the rows. -/
def intersectsExec (w : World) (t : Table) (geom : Option Json) (limit : ℤ) :
    Except PyError Json :=
  let rows := (w.tableRows t).filter (fun r => w.stIntersects r.geom (optToJson geom))
  match sqlLimit limit (rows.map (fun r =>
      [("id", r.id), ("name", coalesceEmpty r.name), ("geom_geojson", r.geom)])) with
  | .error e => .error e
  | .ok out => .ok (rows_to_featurecollection out)

/-- Translation of the handler of `POST /q/intersects`
(`polygon_intersects`): the geometry is parsed first, then `source` is
normalised and `limit` coerced, then the query runs. -/
def polygon_intersects (w : World) (payload : Payload) : Except PyError Json :=
  match parse_geojson_geometry w.loads (dictGet payload "geojson") with
  | .error e => .error e
  | .ok geom =>
    match pyLower (pyOr (dictGet payload "source") (.str "features")) with
    | .error e => .error e
    | .ok source =>
      match pyInt (dictGetD payload "limit" (.num 500)) with
      | .error e => .error e
      | .ok limit =>
        let table := if source = "regions" then Table.regions else Table.features
        intersectsExec w table geom limit

/-- The row dict selected by the within-distance and knn queries:
`id, osmid, element_type, name, tags, dist_m, geom_geojson`. -/
def distRowDict (w : World) (lon lat : Json) (r : Row) : Payload :=
  [("id", r.id), ("osmid", r.osmid), ("element_type", r.element_type),
   ("name", r.name), ("tags", r.tags),
   ("dist_m", .num (w.geogDist r.geom lon lat)), ("geom_geojson", r.geom)]

/-- Translation of the handler of `POST /q/within-distance`
(`within_distance`): filter by `ST_DWithin`, `ORDER BY dist_m`, `LIMIT`,
shape rows that carry the computed `dist_m` column. -/
def within_distance (w : World) (payload : Payload) : Except PyError Json :=
  let lon := dictGet payload "lon"
  let lat := dictGet payload "lat"
  let radius_m := dictGet payload "radius_m"
  match pyInt (dictGetD payload "limit" (.num 500)) with
  | .error e => .error e
  | .ok limit =>
    if lon.isNull || lat.isNull || radius_m.isNull then
      .error (.httpException 400 "lon/lat/radius_m required")
    else
      let hits := w.featRows.filter (fun r => w.dwithin r.geom lon lat radius_m)
      let sorted := List.insertionSort
        (fun a b => w.geogDist a.geom lon lat ≤ w.geogDist b.geom lon lat) hits
      match sqlLimit limit (sorted.map (distRowDict w lon lat)) with
      | .error e => .error e
      | .ok out => .ok (rows_to_featurecollection out)

/-- Translation of the handler of `POST /q/buffer` (`buffer_analysis`):
compute the buffer geometry, collect intersecting features, and return
the `{buffer, hits}` envelope. -/
def buffer_analysis (w : World) (payload : Payload) : Except PyError Json :=
  let lon := dictGet payload "lon"
  let lat := dictGet payload "lat"
  let buffer_m := dictGet payload "buffer_m"
  match pyInt (dictGetD payload "limit" (.num 1000)) with
  | .error e => .error e
  | .ok limit =>
    if lon.isNull || lat.isNull || buffer_m.isNull then
      .error (.httpException 400 "lon/lat/buffer_m required")
    else
      let buf_geom := w.bufGeo lon lat buffer_m
      let hits := w.featRows.filter (fun r => w.stIntersects r.geom buf_geom)
      match sqlLimit limit (hits.map (fun r =>
          [("id", r.id), ("osmid", r.osmid), ("element_type", r.element_type),
           ("name", r.name), ("tags", r.tags), ("geom_geojson", r.geom)])) with
      | .error e => .error e
      | .ok out =>
        .ok (.obj [("buffer", one_geom_to_feature buf_geom (.obj [("buffer_m", buffer_m)])),
                   ("hits", rows_to_featurecollection out)])

/-- Translation of the handler of `POST /q/area` (`polygon_area`): the
SQL computes `ST_Area(g::geography)` once as `area_m2` and the derived
`ST_Area(g::geography)/1e6` as `area_km2`. -/
def polygon_area (w : World) (payload : Payload) : Except PyError Json :=
  match parse_geojson_geometry w.loads (dictGet payload "geojson") with
  | .error e => .error e
  | .ok geom =>
    let a := w.stArea (optToJson geom)
    .ok (.obj [("area_m2", .num a), ("area_km2", .num (a / 1000000))])

/-- Translation of the handler of `POST /q/perimeter`
(`polygon_perimeter`): `perimeter_m` and the derived
`perimeter_m / 1000`. -/
def polygon_perimeter (w : World) (payload : Payload) : Except PyError Json :=
  match parse_geojson_geometry w.loads (dictGet payload "geojson") with
  | .error e => .error e
  | .ok geom =>
    let pm := w.stPerimeter (optToJson geom)
    .ok (.obj [("perimeter_m", .num pm), ("perimeter_km", .num (pm / 1000))])

/-- Translation of the handler of `POST /q/knn` (`knn`): `k` is coerced
before the presence check; the query orders all feature rows by the
`geom <-> pt` operator (`opDist`), applies `LIMIT k`, and reports the
geodesic `dist_m` column in each row. -/
def knn (w : World) (payload : Payload) : Except PyError Json :=
  let lon := dictGet payload "lon"
  let lat := dictGet payload "lat"
  match pyInt (dictGetD payload "k" (.num 10)) with
  | .error e => .error e
  | .ok k =>
    if lon.isNull || lat.isNull then
      .error (.httpException 400 "lon/lat required")
    else
      let sorted := List.insertionSort
        (fun a b => w.opDist a.geom lon lat ≤ w.opDist b.geom lon lat) w.featRows
      match sqlLimit k (sorted.map (distRowDict w lon lat)) with
      | .error e => .error e
      | .ok out => .ok (rows_to_featurecollection out)

/-- Sequential `[parse_geojson_geometry(g) for g in geoms]`: the first
raised exception aborts the comprehension. -/
def parseGeomList (loads : String → Option Json) : List Json → Except PyError (List (Option Json))
  | [] => .ok []
  | g :: gs =>
    match parse_geojson_geometry loads g with
    | .error e => .error e
    | .ok x =>
      match parseGeomList loads gs with
      | .error e => .error e
      | .ok xs => .ok (x :: xs)

/-- Translation of the handler of `POST /q/union` (`union_polygons`).
The `region_ids` branch is taken only when the value is truthy (a
non-empty list passes; an empty list is falsy and falls through); an
aggregate over zero matched rows yields a SQL `NULL` and a 404. -/
def union_polygons (w : World) (payload : Payload) : Except PyError Json :=
  let region_ids := dictGet payload "region_ids"
  let geoms := dictGet payload "geoms"
  if region_ids.truthy then
    match region_ids with
    | .arr ids =>
      let matched := w.regRows.filter (fun r => ids.any (fun j => j.beq r.id))
      let row0 : Option Json :=
        if matched.isEmpty then none else w.stUnion (matched.map (·.geom))
      match row0 with
      | none => .error (.httpException 404 "No geometries found for given region_ids")
      | some g =>
        .ok (one_geom_to_feature g
          (.obj [("source", .str "regions"), ("region_ids", region_ids)]))
    | _ => .error (.dbError "cannot adapt region_ids parameter")
  else if geoms.truthy then
    match pyIter geoms with
    | .error e => .error e
    | .ok gl =>
      match parseGeomList w.loads gl with
      | .error e => .error e
      | .ok geom_list =>
        let g := w.stUnion (geom_list.map optToJson)
        .ok (one_geom_to_feature (optToJson g)
          (.obj [("source", .str "geoms"), ("count", .num geom_list.length)]))
  else
    .error (.httpException 400 "Provide region_ids or geoms")

/-- Translation of the handler of `POST /q/intersection` (`intersection`):
presence check on `a`/`b`, parse both, query `ST_Intersection` and its
geodesic area; a SQL `NULL` intersection yields the literal
`{type: Feature, geometry: null, properties: {area_m2: 0.0}}`. -/
def intersection (w : World) (payload : Payload) : Except PyError Json :=
  let a := dictGet payload "a"
  let b := dictGet payload "b"
  if a.isNull || b.isNull then
    .error (.httpException 400 "Provide a and b (GeoJSON geometry or Feature)")
  else
    match parse_geojson_geometry w.loads a with
    | .error e => .error e
    | .ok ga =>
      match parse_geojson_geometry w.loads b with
      | .error e => .error e
      | .ok gb =>
        match w.stIntersection (optToJson ga) (optToJson gb) with
        | none =>
          .ok (.obj [("type", .str "Feature"), ("geometry", .null),
                     ("properties", .obj [("area_m2", .num 0)])])
        | some g =>
          .ok (one_geom_to_feature g
            (.obj [("area_m2", .num (w.stIntersectionArea (optToJson ga) (optToJson gb)))]))

/-- Translation of the handler of `POST /q/transform` (`transform`):
`to_epsg` is coerced with `int()` before the geometry is parsed; the
response geometry is the 4326 rendering while the reprojected geometry
and the EPSG code travel in `properties`. -/
def transform (w : World) (payload : Payload) : Except PyError Json :=
  let geojson := dictGet payload "geojson"
  match pyInt (dictGetD payload "to_epsg" (.num 3857)) with
  | .error e => .error e
  | .ok to_epsg =>
    match parse_geojson_geometry w.loads geojson with
    | .error e => .error e
    | .ok geom =>
      let g := optToJson geom
      .ok (one_geom_to_feature (w.renderWgs84 g)
        (.obj [("to_epsg", .num to_epsg), ("geom_transformed", w.stTransform g to_epsg)]))

/-! ## Observation helpers on responses -/

/-- Field lookup on a JSON object response (`null` when absent or not an
object). -/
def jlookup (j : Json) (k : String) : Json :=
  match j with
  | .obj kvs => (kvs.lookup k).getD .null
  | _ => .null

/-- The features list of a FeatureCollection response. -/
def respFeatures (resp : Json) : List Json :=
  match jlookup resp "features" with
  | .arr fs => fs
  | _ => []

/-- The reported `properties.dist_m` value of one feature. -/
def featDist (f : Json) : Json :=
  jlookup (jlookup f "properties") "dist_m"

/-- The sequence of reported `dist_m` values of a FeatureCollection, in
emission order. -/
def respDists (resp : Json) : List Json :=
  (respFeatures resp).map featDist

/-- Whether an `Except` result is a success. -/
def exceptOk : Except PyError α → Bool
  | .ok _ => true
  | .error _ => false

/-- The successful value of a handler result (`null` on error); used to
name concrete responses in witness statements. -/
def getOk : Except PyError Json → Json
  | .ok r => r
  | .error _ => .null

/-- The decoding step of `parse_geojson_geometry`: a string input goes
through `json.loads` (`none` on a decode failure); any other input is
already the decoded value. -/
def decodeStep (loads : String → Option Json) : Json → Option Json
  | .str s => loads s
  | j => some j

/-! ## Concrete environments and payloads for witnesses and counterexamples -/

/-- A world with no stored rows and trivial engine oracles. -/
def W0 : World where
  featRows := []
  regRows := []
  loads := fun _ => none
  isPolygonal := fun _ => false
  covers := fun _ _ _ => false
  stIntersects := fun _ _ => false
  dwithin := fun _ _ _ _ => false
  geogDist := fun _ _ _ => 0
  opDist := fun _ _ _ => 0
  bufGeo := fun _ _ _ => .null
  stArea := fun _ => 0
  stPerimeter := fun _ => 0
  stUnion := fun _ => none
  stIntersection := fun _ _ => none
  stIntersectionArea := fun _ _ => 0
  renderWgs84 := fun g => g
  stTransform := fun g _ => g

/-- A valid Polygon geometry body, used by several witnesses. -/
def PolyGeom : Json :=
  .obj [("type", .str "Polygon"),
        ("coordinates", .arr [.arr [.arr [.num 30, .num 59], .arr [.num 31, .num 59],
                                    .arr [.num 31, .num 60], .arr [.num 30, .num 59]]])]

/-- A world whose engine reports a fixed area and perimeter. -/
def W7 : World := { W0 with stArea := fun _ => 5000000, stPerimeter := fun _ => 4000 }

/-- A world whose engine reports a non-empty intersection with area 7. -/
def W3 : World :=
  { W0 with stIntersection := fun _ _ => some (.str "GI"),
            stIntersectionArea := fun _ _ => 7 }

/-- A world with one stored region, for the union-by-ids queries. -/
def WU : World := { W0 with regRows := [{ id := .num 1, name := .null, geom := .str "R1" }] }

/-- Stored geometry of the first feature row in the knn counterexample:
a point one degree of longitude east of the query point, at latitude 60
(about 55.6 km away geodesically, operator distance 1.0 degrees). -/
def geomA : Json := .str "GA"

/-- Geodesic `ST_Distance` oracle of the knn counterexample: row `GA` is
55600 m away, row `GB` 100000 m away (realisable at latitude 60, where
one degree of longitude spans about 55.6 km while 0.9 degrees of
latitude span about 100 km). -/
def gdistCE (g : Json) (_ _ : Json) : ℚ := if g.beq geomA then 55600 else 100000

/-- Planar `geom <-> pt` operator oracle of the knn counterexample,
in tenths of a degree so every value is an integer: row `GA` is 1.0
degrees (10 tenths) away in coordinate space, row `GB` only 0.9 degrees
(9 tenths). -/
def odistCE (g : Json) (_ _ : Json) : ℚ := if g.beq geomA then 10 else 9

/-- The two feature rows of the knn counterexample. -/
def rowsCE : List Row :=
  [{ id := .num 1, name := .null, geom := .str "GA" },
   { id := .num 2, name := .null, geom := .str "GB" }]

/-- The knn counterexample world: the operator ordering puts `GB`
(0.9 degrees < 1.0 degrees) before `GA`, while the reported geodesic
distances are 100000 m and 55600 m — a decreasing sequence. -/
def WC4 : World := { W0 with featRows := rowsCE, geogDist := gdistCE, opDist := odistCE }

/-- A variant whose `ST_DWithin` accepts everything, for the
within-distance witness. -/
def WC4w : World := { WC4 with dwithin := fun _ _ _ _ => true }

/-- A variant whose operator distance coincides with the geodesic
distance, so the knn consistency hypothesis holds. -/
def WC4k : World := { WC4 with opDist := gdistCE }

/-- The query-point payload of the ordering theorems. -/
def PC4 : Payload := [("lon", .num 30), ("lat", .num 60)]

/-- A within-distance payload over the counterexample rows. -/
def PW4 : Payload := [("lon", .num 30), ("lat", .num 60), ("radius_m", .num 200000)]

/-- The concrete within-distance response of the ordering witness. -/
def RW4 : Json := getOk (within_distance WC4w PW4)

/-- The concrete knn response of the ordering witness. -/
def RK4 : Json := getOk (knn WC4k PC4)

/-- A payload carrying only a valid `geojson` geometry. -/
def PG : Payload := [("geojson", PolyGeom)]

/-- The concrete area response of the derived-kilometres witness. -/
def R7a : Json := getOk (polygon_area W7 PG)

/-- The concrete perimeter response of the derived-kilometres witness. -/
def R7p : Json := getOk (polygon_perimeter W7 PG)

/-- A transform payload asking for EPSG 25832. -/
def P8 : Payload := [("geojson", PolyGeom), ("to_epsg", .num 25832)]

/-- The concrete transform response of the original-system witness. -/
def RT8 : Json := getOk (transform W0 P8)

/-- An intersection payload with two valid geometries. -/
def Pab : Payload := [("a", PolyGeom), ("b", PolyGeom)]

/-- A Feature input whose embedded geometry is the bare value `5`. -/
def JF : Json := .obj [("type", .str "Feature"), ("geometry", .num 5)]

/-! ## Helper lemmas -/

theorem foldl_rowFeature_eq (gk : String) (rows : List Payload) (acc : List Json) :
    rows.foldl (fun acc r =>
        match rowFeature gk r with
        | none => acc
        | some f => acc ++ [f]) acc
      = acc ++ rows.filterMap (rowFeature gk) := by
  induction rows generalizing acc with
  | nil => simp
  | cons r rs ih =>
    cases h : rowFeature gk r <;> simp [List.foldl_cons, h, ih]

theorem rows_to_fc_eq_filterMap (rows : List Payload) (gk : String) :
    rows_to_featurecollection rows gk
      = .obj [("type", .str "FeatureCollection"),
              ("features", .arr (rows.filterMap (rowFeature gk)))] := by
  simp [rows_to_featurecollection, foldl_rowFeature_eq]

theorem respFeatures_fc (rows : List Payload) :
    respFeatures (rows_to_featurecollection rows) = rows.filterMap (rowFeature "geom_geojson") := by
  simp [rows_to_fc_eq_filterMap, respFeatures, jlookup, List.lookup]

theorem rowFeature_distRowDict (w : World) (lon lat : Json) (r : Row) :
    rowFeature "geom_geojson" (distRowDict w lon lat r)
      = if r.geom.isNull then none
        else some (.obj [("type", .str "Feature"), ("geometry", r.geom),
          ("properties", .obj [("id", r.id), ("osmid", r.osmid),
            ("element_type", r.element_type), ("name", r.name), ("tags", r.tags),
            ("dist_m", .num (w.geogDist r.geom lon lat))])]) := by
  by_cases h : r.geom.isNull <;>
    simp [rowFeature, popGeom, popRest, distRowDict, List.lookup, List.filter, h]

theorem respDists_distRows (w : World) (lon lat : Json) (rows : List Row) :
    respDists (rows_to_featurecollection (rows.map (distRowDict w lon lat)))
      = (rows.filter (fun r => !r.geom.isNull)).map
          (fun r => Json.num (w.geogDist r.geom lon lat)) := by
  unfold respDists
  rw [respFeatures_fc, List.filterMap_map]
  induction rows with
  | nil => rfl
  | cons r rs ih =>
    by_cases h : r.geom.isNull <;>
      simp [List.filterMap_cons, Function.comp, rowFeature_distRowDict, h, ih,
        List.filter_cons, featDist, jlookup, List.lookup]

theorem Json.isNull_iff (j : Json) : j.isNull = true ↔ j = .null := by
  cases j <;> simp [Json.isNull]

theorem parse_eq_decode (loads : String → Option Json) (j : Json) :
    parse_geojson_geometry loads j =
      if j.isNull then .error (.valueError "geojson is required")
      else
        match decodeStep loads j with
        | none => .error (.valueError "Expecting value: JSON decode error")
        | some (.obj kvs) =>
          match kvs.lookup "type" with
          | none => .error (.valueError "Invalid GeoJSON: must be a dict with a 'type' field")
          | some t =>
            if t.beq (.str "Feature") then .ok (getGeometryField kvs)
            else .ok (some (.obj kvs))
        | some _ => .error (.valueError "Invalid GeoJSON: must be a dict with a 'type' field") := by
  cases j with
  | str s =>
    cases h : loads s with
    | none => simp [parse_geojson_geometry, decodeStep, Json.isNull, h]
    | some j' => cases j' <;> simp [parse_geojson_geometry, decodeStep, Json.isNull, h]
  | null => simp [parse_geojson_geometry, decodeStep, Json.isNull]
  | bool b => simp [parse_geojson_geometry, decodeStep, Json.isNull]
  | num q => simp [parse_geojson_geometry, decodeStep, Json.isNull]
  | arr xs => simp [parse_geojson_geometry, decodeStep, Json.isNull]
  | obj kvs => simp [parse_geojson_geometry, decodeStep, Json.isNull]

/-! ## Claim theorems -/

/-- C6: for every list of rows and every geometry key,
`rows_to_featurecollection` emits exactly the order-preserving
`filterMap` of the per-row Feature builder `rowFeature`, which skips a
row precisely when its geometry column is absent or null (never
emitting a null-geometry Feature) and otherwise wraps the row's
remaining columns verbatim, in their original order, as `properties`. -/
theorem rows_to_featurecollection_spec (rows : List Payload) (gk : String) :
    rows_to_featurecollection rows gk
      = .obj [("type", .str "FeatureCollection"),
              ("features", .arr (rows.filterMap (rowFeature gk)))]
    ∧ (∀ r, popGeom r gk = none → rowFeature gk r = none)
    ∧ (∀ r g, popGeom r gk = some g →
        rowFeature gk r
          = some (.obj [("type", .str "Feature"), ("geometry", g),
                        ("properties", .obj (popRest r gk))])) := by
  refine ⟨rows_to_fc_eq_filterMap rows gk, ?_, ?_⟩
  · intro r h; simp [rowFeature, h]
  · intro r g h; simp [rowFeature, h]

theorem rows_to_featurecollection_spec_witness :
    rows_to_featurecollection
        [[("id", .num 1), ("geom_geojson", .str "G1")], [("id", .num 2)],
         [("id", .num 3), ("geom_geojson", .null)]] "geom_geojson"
      = .obj [("type", .str "FeatureCollection"),
              ("features", .arr [.obj [("type", .str "Feature"), ("geometry", .str "G1"),
                ("properties", .obj [("id", .num 1)])]])]
    ∧ rowFeature "geom_geojson" [("id", .num 2)] = none := by
  have h := rows_to_featurecollection_spec
    [[("id", .num 1), ("geom_geojson", .str "G1")], [("id", .num 2)],
     [("id", .num 3), ("geom_geojson", .null)]] "geom_geojson"
  exact ⟨by rw [h.1]; rfl, h.2.1 _ (by rfl)⟩

/-- C7: in every successful area response, `area_km2` equals
`area_m2 / 1000000` exactly, and in every successful perimeter response
`perimeter_km` equals `perimeter_m / 1000` exactly: the kilometre fields
are a single division of the same engine value that the metre fields
report, not an independent computation. -/
theorem area_perimeter_km_derived (w : World) (p : Payload) (ra rp : Json) :
    (polygon_area w p = .ok ra →
      ∃ m : ℚ, jlookup ra "area_m2" = .num m ∧ jlookup ra "area_km2" = .num (m / 1000000)) ∧
    (polygon_perimeter w p = .ok rp →
      ∃ m : ℚ, jlookup rp "perimeter_m" = .num m ∧ jlookup rp "perimeter_km" = .num (m / 1000)) := by
  constructor
  · intro h
    cases hp : parse_geojson_geometry w.loads (dictGet p "geojson") with
    | error e => simp [polygon_area, hp] at h
    | ok g =>
      simp only [polygon_area, hp] at h
      injection h with h
      subst h
      exact ⟨w.stArea (optToJson g), rfl, rfl⟩
  · intro h
    cases hp : parse_geojson_geometry w.loads (dictGet p "geojson") with
    | error e => simp [polygon_perimeter, hp] at h
    | ok g =>
      simp only [polygon_perimeter, hp] at h
      injection h with h
      subst h
      exact ⟨w.stPerimeter (optToJson g), rfl, rfl⟩

theorem area_perimeter_km_derived_witness :
    (∃ m : ℚ, jlookup R7a "area_m2" = .num m ∧ jlookup R7a "area_km2" = .num (m / 1000000)) ∧
    (∃ m : ℚ, jlookup R7p "perimeter_m" = .num m ∧ jlookup R7p "perimeter_km" = .num (m / 1000)) :=
  ⟨(area_perimeter_km_derived W7 PG R7a R7p).1 (by rfl),
   (area_perimeter_km_derived W7 PG R7a R7p).2 (by rfl)⟩


theorem parse_null (loads : String → Option Json) (j : Json) (h : j.isNull = true) :
    parse_geojson_geometry loads j = .error (.valueError "geojson is required") := by
  cases j <;> simp_all [parse_geojson_geometry, Json.isNull]

theorem parse_decode_fail (loads : String → Option Json) (j : Json)
    (h0 : j.isNull = false) (h : decodeStep loads j = none) :
    parse_geojson_geometry loads j = .error (.valueError "Expecting value: JSON decode error") := by
  cases j <;> simp_all [parse_geojson_geometry, decodeStep, Json.isNull]

theorem parse_not_obj (loads : String → Option Json) (j j' : Json)
    (h0 : j.isNull = false) (h : decodeStep loads j = some j')
    (h2 : ∀ kvs, j' ≠ .obj kvs) :
    parse_geojson_geometry loads j
      = .error (.valueError "Invalid GeoJSON: must be a dict with a 'type' field") := by
  cases j <;> cases j' <;>
    simp_all [parse_geojson_geometry, decodeStep, Json.isNull]

theorem parse_no_type (loads : String → Option Json) (j : Json) (kvs : List (String × Json))
    (h0 : j.isNull = false) (h : decodeStep loads j = some (.obj kvs))
    (h2 : kvs.lookup "type" = none) :
    parse_geojson_geometry loads j
      = .error (.valueError "Invalid GeoJSON: must be a dict with a 'type' field") := by
  cases j <;>
    simp_all only [parse_geojson_geometry, decodeStep, Json.isNull, Option.some.injEq,
      Json.obj.injEq, Bool.false_eq_true, if_false, reduceCtorEq]

theorem parse_feature (loads : String → Option Json) (j : Json) (kvs : List (String × Json))
    (h0 : j.isNull = false) (h : decodeStep loads j = some (.obj kvs))
    (h2 : kvs.lookup "type" = some (.str "Feature")) :
    parse_geojson_geometry loads j = .ok (getGeometryField kvs) := by
  cases j <;> simp_all [parse_geojson_geometry, decodeStep, Json.isNull, Json.beq]

theorem parse_non_feature (loads : String → Option Json) (j : Json)
    (kvs : List (String × Json)) (t : Json)
    (h0 : j.isNull = false) (h : decodeStep loads j = some (.obj kvs))
    (h2 : kvs.lookup "type" = some t) (h3 : t.beq (.str "Feature") = false) :
    parse_geojson_geometry loads j = .ok (some (.obj kvs)) := by
  cases j <;> simp_all [parse_geojson_geometry, decodeStep, Json.isNull]

theorem Json.isNull_false_iff (j : Json) : j.isNull = false ↔ j ≠ .null := by
  cases j <;> simp [Json.isNull]

theorem Json.beq_str_iff (t : Json) (s : String) : t.beq (.str s) = true ↔ t = .str s := by
  cases t <;> simp [Json.beq]

/-- C5: `parse_geojson_geometry` accepts a Geometry mapping, a Feature
mapping, or a JSON-encoded string of either; it fails — always with a
`ValueError` (the `InvalidGeometryError` class) — exactly when the input
is absent, or the post-decode value is not a mapping bearing a `type`
field (this covers a string that fails to decode, which never becomes a
mapping, a decoded non-mapping, and a mapping without `type`).  A
`Feature` input returns the embedded `geometry` field (possibly
null/absent, surfacing as Python `None`); any other typed mapping is
returned unchanged, with no inspection of coordinates. -/
theorem parse_geojson_geometry_spec (loads : String → Option Json) (j : Json) :
    ((∃ e, parse_geojson_geometry loads j = .error e) ↔
      (j = .null ∨
       ¬ ∃ kvs, decodeStep loads j = some (.obj kvs) ∧ (kvs.lookup "type").isSome = true))
    ∧ (∀ e, parse_geojson_geometry loads j = .error e → ∃ m, e = .valueError m)
    ∧ (∀ kvs, j ≠ .null → decodeStep loads j = some (.obj kvs) →
        ((kvs.lookup "type" = some (.str "Feature") →
           parse_geojson_geometry loads j = .ok (getGeometryField kvs))
         ∧ (∀ t, kvs.lookup "type" = some t → t.beq (.str "Feature") = false →
             parse_geojson_geometry loads j = .ok (some (.obj kvs))))) := by
  refine ⟨?_, ?_, ?_⟩
  · by_cases hn : j.isNull
    · have hj := (Json.isNull_iff j).mp hn
      exact iff_of_true ⟨_, parse_null loads j hn⟩ (Or.inl hj)
    · have h0 : j.isNull = false := by
        cases h : j.isNull
        · rfl
        · exact absurd h hn
      have hj := (Json.isNull_false_iff j).mp h0
      cases hd : decodeStep loads j with
      | none =>
        refine iff_of_true ⟨_, parse_decode_fail loads j h0 hd⟩ (Or.inr ?_)
        rintro ⟨kvs, hk, _⟩
        cases hk
      | some j' =>
        cases j' with
        | obj kvs =>
          cases hl : kvs.lookup "type" with
          | none =>
            refine iff_of_true ⟨_, parse_no_type loads j kvs h0 hd hl⟩ (Or.inr ?_)
            rintro ⟨kvs', hk, ht⟩
            injection hk with hk
            injection hk with hk
            rw [← hk, hl] at ht
            cases ht
          | some t =>
            refine iff_of_false ?_ ?_
            · rintro ⟨e, he⟩
              by_cases hf : t.beq (.str "Feature")
              · have ht := (Json.beq_str_iff t "Feature").mp hf
                rw [ht] at hl
                rw [parse_feature loads j kvs h0 hd hl] at he
                cases he
              · have hf' : t.beq (.str "Feature") = false := by
                  cases h : t.beq (.str "Feature")
                  · rfl
                  · exact absurd h hf
                rw [parse_non_feature loads j kvs t h0 hd hl hf'] at he
                cases he
            · rintro (h | h)
              · exact hj h
              · exact h ⟨kvs, rfl, by rw [hl]; rfl⟩
        | null =>
          refine iff_of_true ⟨_, parse_not_obj loads j _ h0 hd (fun kvs h => Json.noConfusion h)⟩
            (Or.inr ?_)
          rintro ⟨kvs', hk, _⟩
          injection hk with hk
          cases hk
        | bool b =>
          refine iff_of_true ⟨_, parse_not_obj loads j _ h0 hd (fun kvs h => Json.noConfusion h)⟩
            (Or.inr ?_)
          rintro ⟨kvs', hk, _⟩
          injection hk with hk
          cases hk
        | num q =>
          refine iff_of_true ⟨_, parse_not_obj loads j _ h0 hd (fun kvs h => Json.noConfusion h)⟩
            (Or.inr ?_)
          rintro ⟨kvs', hk, _⟩
          injection hk with hk
          cases hk
        | str s =>
          refine iff_of_true ⟨_, parse_not_obj loads j _ h0 hd (fun kvs h => Json.noConfusion h)⟩
            (Or.inr ?_)
          rintro ⟨kvs', hk, _⟩
          injection hk with hk
          cases hk
        | arr xs =>
          refine iff_of_true ⟨_, parse_not_obj loads j _ h0 hd (fun kvs h => Json.noConfusion h)⟩
            (Or.inr ?_)
          rintro ⟨kvs', hk, _⟩
          injection hk with hk
          cases hk
  · intro e he
    by_cases hn : j.isNull
    · have := (parse_null loads j hn).symm.trans he
      injection this with h
      exact ⟨_, h.symm⟩
    · have h0 : j.isNull = false := by
        cases h : j.isNull
        · rfl
        · exact absurd h hn
      cases hd : decodeStep loads j with
      | none =>
        have := (parse_decode_fail loads j h0 hd).symm.trans he
        injection this with h
        exact ⟨_, h.symm⟩
      | some j' =>
        cases j' with
        | obj kvs =>
          cases hl : kvs.lookup "type" with
          | none =>
            have := (parse_no_type loads j kvs h0 hd hl).symm.trans he
            injection this with h
            exact ⟨_, h.symm⟩
          | some t =>
            by_cases hf : t.beq (.str "Feature")
            · have ht := (Json.beq_str_iff t "Feature").mp hf
              rw [ht] at hl
              rw [parse_feature loads j kvs h0 hd hl] at he
              cases he
            · have hf' : t.beq (.str "Feature") = false := by
                cases h : t.beq (.str "Feature")
                · rfl
                · exact absurd h hf
              rw [parse_non_feature loads j kvs t h0 hd hl hf'] at he
              cases he
        | null =>
          have := (parse_not_obj loads j _ h0 hd (fun kvs h => Json.noConfusion h)).symm.trans he
          injection this with h
          exact ⟨_, h.symm⟩
        | bool b =>
          have := (parse_not_obj loads j _ h0 hd (fun kvs h => Json.noConfusion h)).symm.trans he
          injection this with h
          exact ⟨_, h.symm⟩
        | num q =>
          have := (parse_not_obj loads j _ h0 hd (fun kvs h => Json.noConfusion h)).symm.trans he
          injection this with h
          exact ⟨_, h.symm⟩
        | str s =>
          have := (parse_not_obj loads j _ h0 hd (fun kvs h => Json.noConfusion h)).symm.trans he
          injection this with h
          exact ⟨_, h.symm⟩
        | arr xs =>
          have := (parse_not_obj loads j _ h0 hd (fun kvs h => Json.noConfusion h)).symm.trans he
          injection this with h
          exact ⟨_, h.symm⟩
  · intro kvs hne hd
    have h0 : j.isNull = false := (Json.isNull_false_iff j).mpr hne
    constructor
    · intro hf
      exact parse_feature loads j kvs h0 hd hf
    · intro t ht hnf
      exact parse_non_feature loads j kvs t h0 hd ht hnf

theorem parse_geojson_geometry_spec_witness :
    parse_geojson_geometry (fun _ => none) JF = .ok (some (.num 5)) := by
  have h := (parse_geojson_geometry_spec (fun _ => none) JF).2.2
    [("type", .str "Feature"), ("geometry", .num 5)]
    (fun h => Json.noConfusion h) rfl
  exact h.1 rfl

/-- C8: for every successful transform request, the returned Feature's
`geometry` field is the engine's rendering of the parsed geometry in the
original reference system (`renderWgs84`, which takes no target EPSG
argument, so the displayed geometry cannot depend on `to_epsg`), while
the geometry reprojected to the coerced `to_epsg` (default 3857) is
carried in `properties.geom_transformed`, alongside `properties.to_epsg`. -/
theorem transform_wgs84_geometry (w : World) (p : Payload) (g : Option Json) (e : ℤ)
    (resp : Json) :
    pyInt (dictGetD p "to_epsg" (.num 3857)) = .ok e →
    parse_geojson_geometry w.loads (dictGet p "geojson") = .ok g →
    transform w p = .ok resp →
    resp = one_geom_to_feature (w.renderWgs84 (optToJson g))
        (.obj [("to_epsg", .num e), ("geom_transformed", w.stTransform (optToJson g) e)])
    ∧ jlookup resp "geometry" = w.renderWgs84 (optToJson g)
    ∧ jlookup (jlookup resp "properties") "geom_transformed" = w.stTransform (optToJson g) e
    ∧ jlookup (jlookup resp "properties") "to_epsg" = .num e := by
  intro he hp ht
  simp only [transform, he, hp] at ht
  injection ht with ht
  subst ht
  exact ⟨rfl, rfl, rfl, rfl⟩

theorem transform_wgs84_geometry_witness :
    RT8 = one_geom_to_feature (W0.renderWgs84 (optToJson (some PolyGeom)))
        (.obj [("to_epsg", .num 25832),
               ("geom_transformed", W0.stTransform (optToJson (some PolyGeom)) 25832)])
    ∧ jlookup RT8 "geometry" = W0.renderWgs84 (optToJson (some PolyGeom))
    ∧ jlookup (jlookup RT8 "properties") "geom_transformed"
        = W0.stTransform (optToJson (some PolyGeom)) 25832
    ∧ jlookup (jlookup RT8 "properties") "to_epsg" = .num 25832 :=
  transform_wgs84_geometry W0 P8 (some PolyGeom) 25832 RT8 (by rfl) (by rfl) (by rfl)

/-- C3: for every intersection request whose two geometries parse, when
the engine reports a SQL `NULL` intersection the handler does not fail:
it returns a Feature with `geometry: null` and properties `area_m2: 0.0`;
for any non-null engine result it returns a single Feature wrapping the
intersection geometry with its geodesic area in `area_m2`. -/
theorem intersection_null_geometry (w : World) (p : Payload) (ga gb : Option Json) :
    (dictGet p "a").isNull = false → (dictGet p "b").isNull = false →
    parse_geojson_geometry w.loads (dictGet p "a") = .ok ga →
    parse_geojson_geometry w.loads (dictGet p "b") = .ok gb →
    (w.stIntersection (optToJson ga) (optToJson gb) = none →
      intersection w p = .ok (.obj [("type", .str "Feature"), ("geometry", .null),
        ("properties", .obj [("area_m2", .num 0)])]))
    ∧ (∀ g, w.stIntersection (optToJson ga) (optToJson gb) = some g →
        intersection w p = .ok (one_geom_to_feature g
          (.obj [("area_m2", .num (w.stIntersectionArea (optToJson ga) (optToJson gb)))]))) := by
  intro hA hB hpa hpb
  constructor
  · intro hnone
    simp [intersection, hA, hB, hpa, hpb, hnone]
  · intro g hsome
    simp [intersection, hA, hB, hpa, hpb, hsome]

theorem intersection_null_geometry_witness :
    intersection W0 Pab = .ok (.obj [("type", .str "Feature"), ("geometry", .null),
        ("properties", .obj [("area_m2", .num 0)])])
    ∧ intersection W3 Pab = .ok (one_geom_to_feature (.str "GI")
        (.obj [("area_m2", .num (W3.stIntersectionArea (optToJson (some PolyGeom))
                  (optToJson (some PolyGeom))))])) :=
  ⟨(intersection_null_geometry W0 Pab (some PolyGeom) (some PolyGeom)
      (by rfl) (by rfl) (by rfl) (by rfl)).1 (by rfl),
   (intersection_null_geometry W3 Pab (some PolyGeom) (some PolyGeom)
      (by rfl) (by rfl) (by rfl) (by rfl)).2 (.str "GI") (by rfl)⟩

/-- C1 (amended): operations with explicit presence checks — pip,
within-distance, buffer, knn, intersection, union — fail on a missing
required field with an `HTTPException(400, ...)` naming the missing
field(s), which FastAPI surfaces as a client error; but the four
geometry-bearing operations — intersects, area, perimeter, transform —
route the missing `geojson` through the Geometry Adapter, which raises a
plain `ValueError` ("geojson is required"): an uncaught exception that
is a 500 server error, not a client error, so the policy is not uniform. -/
theorem missing_required_field_errors :
    (∀ (w : World) (p : Payload) (s : String) (n : ℤ),
      pyLower (pyOr (dictGet p "source") (.str "features")) = .ok s →
      pyInt (dictGetD p "limit" (.num 200)) = .ok n →
      ((dictGet p "lon").isNull || (dictGet p "lat").isNull) = true →
      point_in_polygon w p = .error (.httpException 400 "lon/lat required"))
    ∧ (∀ (w : World) (p : Payload) (n : ℤ),
      pyInt (dictGetD p "limit" (.num 500)) = .ok n →
      ((dictGet p "lon").isNull || (dictGet p "lat").isNull
        || (dictGet p "radius_m").isNull) = true →
      within_distance w p = .error (.httpException 400 "lon/lat/radius_m required"))
    ∧ (∀ (w : World) (p : Payload) (n : ℤ),
      pyInt (dictGetD p "limit" (.num 1000)) = .ok n →
      ((dictGet p "lon").isNull || (dictGet p "lat").isNull
        || (dictGet p "buffer_m").isNull) = true →
      buffer_analysis w p = .error (.httpException 400 "lon/lat/buffer_m required"))
    ∧ (∀ (w : World) (p : Payload) (n : ℤ),
      pyInt (dictGetD p "k" (.num 10)) = .ok n →
      ((dictGet p "lon").isNull || (dictGet p "lat").isNull) = true →
      knn w p = .error (.httpException 400 "lon/lat required"))
    ∧ (∀ (w : World) (p : Payload),
      ((dictGet p "a").isNull || (dictGet p "b").isNull) = true →
      intersection w p = .error (.httpException 400 "Provide a and b (GeoJSON geometry or Feature)"))
    ∧ (∀ (w : World) (p : Payload),
      (dictGet p "region_ids").truthy = false → (dictGet p "geoms").truthy = false →
      union_polygons w p = .error (.httpException 400 "Provide region_ids or geoms"))
    ∧ (∀ (w : World) (p : Payload),
      dictGet p "geojson" = .null →
      polygon_intersects w p = .error (.valueError "geojson is required"))
    ∧ (∀ (w : World) (p : Payload),
      dictGet p "geojson" = .null →
      polygon_area w p = .error (.valueError "geojson is required"))
    ∧ (∀ (w : World) (p : Payload),
      dictGet p "geojson" = .null →
      polygon_perimeter w p = .error (.valueError "geojson is required"))
    ∧ (∀ (w : World) (p : Payload) (n : ℤ),
      pyInt (dictGetD p "to_epsg" (.num 3857)) = .ok n →
      dictGet p "geojson" = .null →
      transform w p = .error (.valueError "geojson is required"))
    ∧ (∀ d, isClientError (.httpException 400 d))
    ∧ (∀ m, ¬ isClientError (.valueError m)) := by
  refine ⟨?_, ?_, ?_, ?_, ?_, ?_, ?_, ?_, ?_, ?_, ?_, ?_⟩
  · intro w p s n hs hn hmiss
    simp [point_in_polygon, hs, hn, hmiss]
  · intro w p n hn hmiss
    simp [within_distance, hn, hmiss]
  · intro w p n hn hmiss
    simp [buffer_analysis, hn, hmiss]
  · intro w p n hn hmiss
    simp [knn, hn, hmiss]
  · intro w p hmiss
    simp [intersection, hmiss]
  · intro w p h1 h2
    simp [union_polygons, h1, h2]
  · intro w p h
    simp [polygon_intersects, h, parse_null, Json.isNull]
  · intro w p h
    simp [polygon_area, h, parse_null, Json.isNull]
  · intro w p h
    simp [polygon_perimeter, h, parse_null, Json.isNull]
  · intro w p n hn h
    simp [transform, hn, h, parse_null, Json.isNull]
  · intro d
    exact ⟨by norm_num, by norm_num⟩
  · intro m
    exact fun h => h

theorem missing_required_field_errors_counterexample :
    polygon_area W0 [] = .error (.valueError "geojson is required")
    ∧ ¬ isClientError (.valueError "geojson is required") :=
  ⟨by rfl, fun h => h⟩

theorem missing_required_field_errors_witness :
    point_in_polygon W0 [] = .error (.httpException 400 "lon/lat required")
    ∧ within_distance W0 [] = .error (.httpException 400 "lon/lat/radius_m required")
    ∧ buffer_analysis W0 [] = .error (.httpException 400 "lon/lat/buffer_m required")
    ∧ knn W0 [] = .error (.httpException 400 "lon/lat required")
    ∧ intersection W0 [] = .error (.httpException 400 "Provide a and b (GeoJSON geometry or Feature)")
    ∧ union_polygons W0 [] = .error (.httpException 400 "Provide region_ids or geoms")
    ∧ polygon_intersects W0 [] = .error (.valueError "geojson is required")
    ∧ polygon_perimeter W0 [] = .error (.valueError "geojson is required")
    ∧ transform W0 [] = .error (.valueError "geojson is required")
    ∧ isClientError (.httpException 400 "lon/lat required") :=
  ⟨missing_required_field_errors.1 W0 [] "features" 200 (by rfl) (by rfl) (by rfl),
   (missing_required_field_errors.2.1) W0 [] 500 (by rfl) (by rfl),
   (missing_required_field_errors.2.2.1) W0 [] 1000 (by rfl) (by rfl),
   (missing_required_field_errors.2.2.2.1) W0 [] 10 (by rfl) (by rfl),
   (missing_required_field_errors.2.2.2.2.1) W0 [] (by rfl),
   (missing_required_field_errors.2.2.2.2.2.1) W0 [] (by rfl) (by rfl),
   (missing_required_field_errors.2.2.2.2.2.2.1) W0 [] (by rfl),
   (missing_required_field_errors.2.2.2.2.2.2.2.2.1) W0 [] (by rfl),
   (missing_required_field_errors.2.2.2.2.2.2.2.2.2.1) W0 [] 3857 (by rfl) (by rfl),
   (missing_required_field_errors.2.2.2.2.2.2.2.2.2.2.1) "lon/lat required"⟩

/-- C2 (amended): for the union operation, a `region_ids` equal to the
empty list is falsy in the handler's `if region_ids:` guard, so it falls
through to the geoms branch and — absent a truthy `geoms` — fails with
the `HTTPException(400, "Provide region_ids or geoms")` caller error,
not with `NotFoundError`; only a non-empty `region_ids` list matching
zero stored rows yields the 404 `NotFoundError`; supplying neither field
(or only an empty `geoms` list) yields the same 400 error; the 404 and
400 conditions are distinct. -/
theorem union_error_conditions :
    (∀ (w : World) (p : Payload),
      dictGet p "region_ids" = .arr [] → (dictGet p "geoms").truthy = false →
      union_polygons w p = .error (.httpException 400 "Provide region_ids or geoms"))
    ∧ (∀ (w : World) (p : Payload) (ids : List Json),
      dictGet p "region_ids" = .arr ids → ids ≠ [] →
      w.regRows.filter (fun r => ids.any (fun j => j.beq r.id)) = [] →
      union_polygons w p = .error (.httpException 404 "No geometries found for given region_ids"))
    ∧ (∀ (w : World) (p : Payload),
      (dictGet p "region_ids").truthy = false → (dictGet p "geoms").truthy = false →
      union_polygons w p = .error (.httpException 400 "Provide region_ids or geoms"))
    ∧ isNotFoundError (.httpException 404 "No geometries found for given region_ids")
    ∧ ¬ isNotFoundError (.httpException 400 "Provide region_ids or geoms")
    ∧ isClientError (.httpException 400 "Provide region_ids or geoms") := by
  refine ⟨?_, ?_, ?_, rfl, ?_, ?_⟩
  · intro w p h1 h2
    simp only [union_polygons, h1, h2]
    simp [Json.truthy]
  · intro w p ids h1 h2 h3
    simp only [union_polygons, h1]
    simp [Json.truthy, h2, h3]
  · intro w p h1 h2
    simp [union_polygons, h1, h2]
  · intro h
    exact absurd h (by norm_num [isNotFoundError])
  · exact ⟨by norm_num, by norm_num⟩

theorem union_error_conditions_counterexample :
    union_polygons WU [("region_ids", .arr [])]
        = .error (.httpException 400 "Provide region_ids or geoms")
    ∧ ¬ isNotFoundError (.httpException 400 "Provide region_ids or geoms") :=
  ⟨by rfl, fun h => by norm_num [isNotFoundError] at h⟩

theorem union_error_conditions_witness :
    union_polygons WU [("region_ids", .arr [])]
        = .error (.httpException 400 "Provide region_ids or geoms")
    ∧ union_polygons WU [("region_ids", .arr [.num 99])]
        = .error (.httpException 404 "No geometries found for given region_ids")
    ∧ union_polygons WU []
        = .error (.httpException 400 "Provide region_ids or geoms") :=
  ⟨union_error_conditions.1 WU [("region_ids", .arr [])] (by rfl) (by rfl),
   union_error_conditions.2.1 WU [("region_ids", .arr [.num 99])] [.num 99]
     (by rfl) (by simp) (by rfl),
   union_error_conditions.2.2.1 WU [] (by rfl) (by rfl)⟩

/-- C9 (amended): for point-in-polygon and intersects, any absent, null
or otherwise falsy `source`, and any string `source` whose lowercase
form is not "regions", silently selects the features table with no
validation error; but a truthy non-string `source` (e.g. the number 1)
does not select any table: `.lower()` raises an unhandled
`AttributeError` before the table switch is reached. -/
theorem source_switch :
    (∀ (w : World) (p : Payload) (s : String) (n : ℤ),
      pyLower (pyOr (dictGet p "source") (.str "features")) = .ok s →
      s ≠ "regions" →
      pyInt (dictGetD p "limit" (.num 200)) = .ok n →
      (dictGet p "lon").isNull = false → (dictGet p "lat").isNull = false →
      point_in_polygon w p = pipExec w .features (dictGet p "lon") (dictGet p "lat") n)
    ∧ (∀ (w : World) (p : Payload) (g : Option Json) (s : String) (n : ℤ),
      parse_geojson_geometry w.loads (dictGet p "geojson") = .ok g →
      pyLower (pyOr (dictGet p "source") (.str "features")) = .ok s →
      s ≠ "regions" →
      pyInt (dictGetD p "limit" (.num 500)) = .ok n →
      polygon_intersects w p = intersectsExec w .features g n)
    ∧ (∀ (w : World) (p : Payload),
      (dictGet p "source").truthy = true →
      (∀ s, dictGet p "source" ≠ .str s) →
      point_in_polygon w p = .error (.attributeError "object has no attribute lower"))
    ∧ (∀ v : Json, v.truthy = false → pyOr v (.str "features") = .str "features") := by
  refine ⟨?_, ?_, ?_, ?_⟩
  · intro w p s n hs hsne hn hlon hlat
    simp [point_in_polygon, hs, hsne, hn, hlon, hlat]
  · intro w p g s n hg hs hsne hn
    simp [polygon_intersects, hg, hs, hsne, hn]
  · intro w p h1 h2
    cases hv : dictGet p "source" with
    | str s => exact absurd hv (h2 s)
    | null => rw [hv] at h1; simp [Json.truthy] at h1
    | bool b => rw [hv] at h1; simp [point_in_polygon, hv, pyOr, h1, pyLower]
    | num q => rw [hv] at h1; simp [point_in_polygon, hv, pyOr, h1, pyLower]
    | arr xs => rw [hv] at h1; simp [point_in_polygon, hv, pyOr, h1, pyLower]
    | obj kvs => rw [hv] at h1; simp [point_in_polygon, hv, pyOr, h1, pyLower]
  · intro v hv
    simp [pyOr, hv]

theorem source_switch_counterexample :
    point_in_polygon W0 [("lon", .num 30), ("lat", .num 60), ("source", .num 1)]
      = .error (.attributeError "object has no attribute lower") := by rfl

theorem source_switch_witness :
    point_in_polygon W0 [("lon", .num 1), ("lat", .num 2), ("source", .str "FeAtures")]
        = pipExec W0 .features (.num 1) (.num 2) 200
    ∧ polygon_intersects W0 PG = intersectsExec W0 .features (some PolyGeom) 500
    ∧ point_in_polygon W0 [("source", .num 1)]
        = .error (.attributeError "object has no attribute lower")
    ∧ pyOr .null (.str "features") = .str "features" :=
  ⟨source_switch.1 W0 [("lon", .num 1), ("lat", .num 2), ("source", .str "FeAtures")]
      "features" 200 (by rfl) (by decide) (by rfl) (by rfl) (by rfl),
   source_switch.2.1 W0 PG (some PolyGeom) "features" 500 (by rfl) (by rfl) (by decide) (by rfl),
   source_switch.2.2.1 W0 [("source", .num 1)] (by rfl) (fun s h => by cases h),
   source_switch.2.2.2 .null (by rfl)⟩

theorem ratTrunc_intCast (n : ℤ) : ratTrunc ((n : ℤ) : ℚ) = n := by
  unfold ratTrunc
  split <;> simp

/-- C10: in point-in-polygon and knn, the optional numeric parameters
(`limit`, `k`) are coerced with `int()` before the `lon`/`lat` presence
check: a coercion failure escapes as that conversion error (never a
4xx client error) even when `lon` and `lat` are missing, and a
fractional value is silently truncated toward zero — replacing it by its
truncation changes nothing about the handler's behaviour. -/
theorem numeric_coercion_before_presence :
    (∀ (w : World) (p : Payload) (s : String) (e : PyError),
      pyLower (pyOr (dictGet p "source") (.str "features")) = .ok s →
      pyInt (dictGetD p "limit" (.num 200)) = .error e →
      point_in_polygon w p = .error e)
    ∧ (∀ (w : World) (p : Payload) (e : PyError),
      pyInt (dictGetD p "k" (.num 10)) = .error e →
      knn w p = .error e)
    ∧ (∀ (j : Json) (e : PyError), pyInt j = .error e → ¬ isClientError e)
    ∧ (∀ (w : World) (p : Payload) (q : ℚ),
      dictGetD p "limit" (.num 200) = .num q →
      point_in_polygon w p = point_in_polygon w (("limit", .num (ratTrunc q)) :: p))
    ∧ (∀ (w : World) (p : Payload) (q : ℚ),
      dictGetD p "k" (.num 10) = .num q →
      knn w p = knn w (("k", .num (ratTrunc q)) :: p))
    ∧ ratTrunc (37 / 10) = 3 ∧ ratTrunc (-37 / 10) = -3 := by
  refine ⟨?_, ?_, ?_, ?_, ?_, by norm_num [ratTrunc], by norm_num [ratTrunc, Int.ceil_neg]⟩
  · intro w p s e hs he
    simp [point_in_polygon, hs, he]
  · intro w p e he
    simp [knn, he]
  · intro j e he
    cases j with
    | num q => simp [pyInt] at he
    | bool b => simp [pyInt] at he
    | null =>
      simp only [pyInt, Except.error.injEq] at he
      subst he
      exact fun h => h
    | arr xs =>
      simp only [pyInt, Except.error.injEq] at he
      subst he
      exact fun h => h
    | obj kvs =>
      simp only [pyInt, Except.error.injEq] at he
      subst he
      exact fun h => h
    | str s =>
      simp only [pyInt] at he
      cases hi : strToInt? s with
      | some n => simp [hi] at he
      | none =>
        simp only [hi, Except.error.injEq] at he
        subst he
        exact fun h => h
  · intro w p q hq
    have h1 : dictGetD (("limit", Json.num ((ratTrunc q : ℤ) : ℚ)) :: p) "limit" (.num 200)
        = .num ((ratTrunc q : ℤ) : ℚ) := by
      simp [dictGetD, List.lookup]
    have h2 : ∀ key : String, key ≠ "limit" →
        dictGet (("limit", Json.num ((ratTrunc q : ℤ) : ℚ)) :: p) key = dictGet p key := by
      intro key hk
      simp [dictGet, List.lookup, beq_eq_false_iff_ne.mpr hk]
    simp only [point_in_polygon, h1, hq, pyInt, ratTrunc_intCast,
      h2 "lon" (by decide), h2 "lat" (by decide), h2 "source" (by decide)]
  · intro w p q hq
    have h1 : dictGetD (("k", Json.num ((ratTrunc q : ℤ) : ℚ)) :: p) "k" (.num 10)
        = .num ((ratTrunc q : ℤ) : ℚ) := by
      simp [dictGetD, List.lookup]
    have h2 : ∀ key : String, key ≠ "k" →
        dictGet (("k", Json.num ((ratTrunc q : ℤ) : ℚ)) :: p) key = dictGet p key := by
      intro key hk
      simp [dictGet, List.lookup, beq_eq_false_iff_ne.mpr hk]
    simp only [knn, h1, hq, pyInt, ratTrunc_intCast,
      h2 "lon" (by decide), h2 "lat" (by decide)]

theorem numeric_coercion_before_presence_witness :
    point_in_polygon W0 [("limit", .str "abc")]
        = .error (.valueError "invalid literal for int with base 10: abc")
    ∧ knn W0 [("k", .str "xyz")]
        = .error (.valueError "invalid literal for int with base 10: xyz")
    ∧ ¬ isClientError (.valueError "invalid literal for int with base 10: abc")
    ∧ point_in_polygon W0 [("lon", .num 1), ("lat", .num 2), ("limit", .num (37 / 10))]
        = point_in_polygon W0 (("limit", .num (ratTrunc (37 / 10)))
            :: [("lon", .num 1), ("lat", .num 2), ("limit", .num (37 / 10))])
    ∧ knn W0 [("k", .num (37 / 10))]
        = knn W0 (("k", .num (ratTrunc (37 / 10))) :: [("k", .num (37 / 10))]) :=
  ⟨numeric_coercion_before_presence.1 W0 [("limit", .str "abc")] "features" _ (by rfl) (by rfl),
   numeric_coercion_before_presence.2.1 W0 [("k", .str "xyz")] _ (by rfl),
   numeric_coercion_before_presence.2.2.1 (.str "abc") _ (by rfl),
   numeric_coercion_before_presence.2.2.2.1 W0 _ (37 / 10) (by rfl),
   numeric_coercion_before_presence.2.2.2.2.1 W0 _ (37 / 10) (by rfl)⟩

theorem respDists_sorted (w : World) (lon lat : Json) (rows : List Row)
    (hrows : List.Pairwise
      (fun a b => w.geogDist a.geom lon lat ≤ w.geogDist b.geom lon lat) rows) :
    ∃ qs : List ℚ,
      respDists (rows_to_featurecollection (rows.map (distRowDict w lon lat)))
          = qs.map Json.num
        ∧ qs.Pairwise (· ≤ ·) := by
  refine ⟨(rows.filter (fun r => !r.geom.isNull)).map (fun r => w.geogDist r.geom lon lat),
    ?_, ?_⟩
  · rw [respDists_distRows, List.map_map]
    rfl
  · rw [List.pairwise_map]
    exact hrows.filter _

/-- C4 (amended): within-distance results are emitted in non-decreasing
order of the reported `dist_m`, because the query both orders by and
reports the geodesic distance.  KNN, however, orders by the planar
`geom <-> pt` operator while reporting the geodesic `dist_m`: its
output is non-decreasing in `dist_m` only under the additional
hypothesis that the operator ordering is consistent with the geodesic
ordering (KNN does return the first `k` rows of the operator ordering;
the monotonicity of the reported distances is not guaranteed in
general). -/
theorem distance_ordering :
    (∀ (w : World) (p : Payload) (resp : Json),
      within_distance w p = .ok resp →
      ∃ qs : List ℚ, respDists resp = qs.map Json.num ∧ qs.Pairwise (· ≤ ·))
    ∧ (∀ (w : World) (p : Payload) (resp : Json),
      (∀ a b : Row,
        w.opDist a.geom (dictGet p "lon") (dictGet p "lat")
            ≤ w.opDist b.geom (dictGet p "lon") (dictGet p "lat") →
        w.geogDist a.geom (dictGet p "lon") (dictGet p "lat")
            ≤ w.geogDist b.geom (dictGet p "lon") (dictGet p "lat")) →
      knn w p = .ok resp →
      ∃ qs : List ℚ, respDists resp = qs.map Json.num ∧ qs.Pairwise (· ≤ ·)) := by
  constructor
  · intro w p resp h
    simp only [within_distance] at h
    split at h
    · cases h
    · split at h
      · cases h
      · split at h
        · cases h
        · next out heq =>
          injection h with h
          subst h
          unfold sqlLimit at heq
          split at heq
          · cases heq
          · injection heq with heq
            subst heq
            rw [← List.map_take]
            apply respDists_sorted
            haveI : IsTotal Row (fun a b =>
                w.geogDist a.geom (dictGet p "lon") (dictGet p "lat")
                  ≤ w.geogDist b.geom (dictGet p "lon") (dictGet p "lat")) :=
              ⟨fun a b => le_total _ _⟩
            haveI : IsTrans Row (fun a b =>
                w.geogDist a.geom (dictGet p "lon") (dictGet p "lat")
                  ≤ w.geogDist b.geom (dictGet p "lon") (dictGet p "lat")) :=
              ⟨fun a b c hab hbc => le_trans hab hbc⟩
            exact (List.sorted_insertionSort _ _).sublist (List.take_sublist _ _)
  · intro w p resp hmono h
    simp only [knn] at h
    split at h
    · cases h
    · split at h
      · cases h
      · split at h
        · cases h
        · next out heq =>
          injection h with h
          subst h
          unfold sqlLimit at heq
          split at heq
          · cases heq
          · injection heq with heq
            subst heq
            rw [← List.map_take]
            apply respDists_sorted
            haveI : IsTotal Row (fun a b =>
                w.opDist a.geom (dictGet p "lon") (dictGet p "lat")
                  ≤ w.opDist b.geom (dictGet p "lon") (dictGet p "lat")) :=
              ⟨fun a b => le_total _ _⟩
            haveI : IsTrans Row (fun a b =>
                w.opDist a.geom (dictGet p "lon") (dictGet p "lat")
                  ≤ w.opDist b.geom (dictGet p "lon") (dictGet p "lat")) :=
              ⟨fun a b c hab hbc => le_trans hab hbc⟩
            have hsorted := (List.sorted_insertionSort (fun a b =>
                w.opDist a.geom (dictGet p "lon") (dictGet p "lat")
                  ≤ w.opDist b.geom (dictGet p "lon") (dictGet p "lat")) w.featRows)
            exact ((hsorted.imp (fun hab => hmono _ _ hab)).sublist (List.take_sublist _ _))

/-- C4 counterexample: in the world `WC4` — realisable at latitude 60,
where one degree of longitude spans about 55.6 km while 0.9 degrees of
latitude span about 100 km — the knn response emits `dist_m` values
`[100000, 55600]`, a strictly decreasing sequence, because the planar
operator ordering disagrees with the geodesic distances reported. -/
theorem distance_ordering_counterexample :
    (knn WC4 PC4).map respDists = .ok [Json.num 100000, Json.num 55600]
      ∧ ¬ ((100000 : ℚ) ≤ 55600) :=
  ⟨by rfl, by norm_num⟩

theorem distance_ordering_witness :
    (∃ qs : List ℚ, respDists RW4 = qs.map Json.num ∧ qs.Pairwise (· ≤ ·))
    ∧ (∃ qs : List ℚ, respDists RK4 = qs.map Json.num ∧ qs.Pairwise (· ≤ ·)) :=
  ⟨distance_ordering.1 WC4w PW4 RW4 (by rfl),
   distance_ordering.2 WC4k PC4 RK4 (fun a b hab => hab) (by rfl)⟩
